import Mathlib

/-!
Shallow embedding of the image-processing core of the Fujifilm Grain
Simulator repository (src/js/grainProcessor.js and the LUT processing
module src/unnamed/part_001), together with theorems settling the frozen
claims about it.

Numeric model: JavaScript double arithmetic is idealised as exact rational
arithmetic (`ℚ`).  The transcendental host functions `Math.sin`, `Math.cos`,
`Math.tanh`, `Math.exp` and the constant `Math.PI` are implementation
approximated by the ECMAScript standard, so the embedding is parametric in
them: a `JSMath` record supplies them, and every theorem quantifies over
(or instantiates) such a record.  Stores into a `Uint8ClampedArray` are
modelled by the saturation performed by the explicit `_clamp` of the
source; the additional rounding-to-integer of the typed array store is not
modelled (the claims under study are about saturation, not rounding).
-/

/-- The host `Math` object: the implementation-approximated transcendental
functions and `Math.PI`, over the rational scalar model. -/
structure JSMath where
  sin : ℚ → ℚ
  cos : ℚ → ℚ
  tanh : ℚ → ℚ
  exp : ℚ → ℚ
  pi : ℚ

/-- `GrainProcessor._fade` (grainProcessor.js line 141): quintic fade. -/
def fade (t : ℚ) : ℚ :=
  t * t * t * (t * (t * 6 - 15) + 10)

/-- `GrainProcessor._lerp` (grainProcessor.js line 145). -/
def lerp (a b t : ℚ) : ℚ :=
  a + t * (b - a)

/-- `GrainProcessor._clamp` (grainProcessor.js line 181):
`Math.max(0, Math.min(255, value))`. -/
def clamp (value : ℚ) : ℚ :=
  max 0 (min 255 value)

/-- `GrainProcessor._gradientDot` (grainProcessor.js lines 130-139):
hash the lattice point to an angle, take the unit gradient at that angle,
and dot it with the offset vector `(x, y)`. -/
def gradientDot (M : JSMath) (ix iy x y : ℚ) : ℚ :=
  let random := M.sin (ix * 12.9898 + iy * 78.233) * 43758.5453
  let angle := (random - (⌊random⌋ : ℚ)) * M.pi * 2
  let gx := M.cos angle
  let gy := M.sin angle
  gx * x + gy * y

/-- `GrainProcessor._generateCoherentNoise` (grainProcessor.js lines
105-128): corner gradient dots combined by quintic-fade bilinear
interpolation.  `Math.floor` of the JS source is the rational floor. -/
def generateCoherentNoise (M : JSMath) (x y : ℚ) : ℚ :=
  let X : ℤ := ⌊x⌋
  let Y : ℤ := ⌊y⌋
  let xf := x - (X : ℚ)
  let yf := y - (Y : ℚ)
  let n00 := gradientDot M (X : ℚ) (Y : ℚ) xf yf
  let n01 := gradientDot M (X : ℚ) ((Y : ℚ) + 1) xf (yf - 1)
  let n10 := gradientDot M ((X : ℚ) + 1) (Y : ℚ) (xf - 1) yf
  let n11 := gradientDot M ((X : ℚ) + 1) ((Y : ℚ) + 1) (xf - 1) (yf - 1)
  let u := fade xf
  let v := fade yf
  let nx0 := lerp n00 n10 u
  let nx1 := lerp n01 n11 u
  lerp nx0 nx1 v

/-- `GrainProcessor._applyFilmCurve` (grainProcessor.js line 149):
`Math.tanh(value * 2) * 0.5`. -/
def applyFilmCurve (M : JSMath) (value : ℚ) : ℚ :=
  M.tanh (value * 2) * 0.5

/-- The frequency-band scales of `_generateMonochromaticGrain`
(grainProcessor.js line 80). -/
def scales : List ℚ := [1.0, 2.0, 4.0]

/-- The per-pixel body of `GrainProcessor._generateMonochromaticGrain`
(grainProcessor.js lines 82-99): weighted multi-band coherent noise,
normalised by the number of bands, through the film curve. -/
def grainPixel (M : JSMath) (grainSize : ℚ) (x y : ℕ) : ℚ :=
  let raw := (List.range scales.length).foldl (fun grainValue i =>
    let scale := scales.getD i 0 * grainSize
    let weight := 1 / ((i : ℚ) + 1)
    grainValue + generateCoherentNoise M ((x : ℚ) / scale) ((y : ℚ) / scale) * weight) 0
  applyFilmCurve M (raw / (scales.length : ℚ))

/-- `GrainProcessor._generateMonochromaticGrain` (grainProcessor.js lines
76-103): the `height × width` grid of grain values. -/
def generateMonochromaticGrain (M : JSMath) (width height : ℕ) (grainSize : ℚ) :
    List (List ℚ) :=
  (List.range height).map (fun y => (List.range width).map (fun x =>
    grainPixel M grainSize x y))

/-- `GrainProcessor._createLuminanceMap` (grainProcessor.js lines 154-170).
Out-of-range reads of the source buffer (JS `undefined`) are idealised as 0;
they occur only for buffers shorter than `width * height * 4`. -/
def createLuminanceMap (data : List ℚ) (width height : ℕ) : List (List ℚ) :=
  (List.range height).map (fun y => (List.range width).map (fun x =>
    let index := (y * width + x) * 4
    (0.299 * data.getD index 0 + 0.587 * data.getD (index + 1) 0
      + 0.114 * data.getD (index + 2) 0) / 255))

/-- `GrainProcessor._getAdaptiveStrength` (grainProcessor.js lines 172-179). -/
def getAdaptiveStrength (M : JSMath) (luminance baseIntensity : ℚ) : ℚ :=
  let midtoneCurve := M.exp (-((luminance - 0.5) ^ 2) / 0.18)
  baseIntensity * (0.4 + 0.6 * midtoneCurve)

/-- One row of the ISO parameter table of `_getIsoParameters`. -/
structure IsoParams where
  intensity : ℚ
  size : ℚ
  contrast : ℚ

/-- `GrainProcessor._getIsoParameters` (grainProcessor.js lines 185-196):
the fixed table, with `params[iso] || params[800]` fallback. -/
def getIsoParameters (iso : ℕ) : IsoParams :=
  if iso = 100 then ⟨0.08, 0.7, 0.3⟩
  else if iso = 200 then ⟨0.12, 0.8, 0.4⟩
  else if iso = 400 then ⟨0.18, 0.9, 0.5⟩
  else if iso = 800 then ⟨0.25, 1.0, 0.6⟩
  else if iso = 1600 then ⟨0.35, 1.2, 0.7⟩
  else if iso = 3200 then ⟨0.50, 1.5, 0.8⟩
  else ⟨0.25, 1.0, 0.6⟩

/-- The settings object consumed by `_applyNaturalGrain`. -/
structure GrainSettings where
  iso : ℕ
  strength : ℚ
  grainSize : ℚ

/-- The grain increment computed for pixel `p` by the loop body of
`GrainProcessor._applyNaturalGrain` (grainProcessor.js lines 44-65):
`grainPattern[y][x] * adaptiveStrength * 255`, with the adaptive strength
derived from the luminance map and the ISO-scaled intensity. -/
def grainValueAt (M : JSMath) (data : List ℚ) (width height : ℕ)
    (s : GrainSettings) (p : ℕ) : ℚ :=
  let isoParams := getIsoParameters s.iso
  let grainIntensity := s.strength * isoParams.intensity
  let grainSize := s.grainSize * isoParams.size
  let x := p % width
  let y := p / width
  let luminance := ((createLuminanceMap data width height).getD y []).getD x 0
  let adaptiveStrength := getAdaptiveStrength M luminance grainIntensity
  ((generateMonochromaticGrain M width height grainSize).getD y []).getD x 0
    * adaptiveStrength * 255

/-- `GrainProcessor._applyNaturalGrain` (grainProcessor.js lines 44-74),
as a function on the flat RGBA sample list.  The in-place double loop
writes, for every pixel `p = y * width + x` with `y < height`,
`x < width` (equivalently `p < width * height`), the three colour samples
`4p`, `4p+1`, `4p+2` to `clamp(old + grainValue)` and leaves the alpha
sample `4p+3` alone; each pixel reads only its own original samples and
the pre-computed maps, and JS drops typed-array stores past the end of the
buffer, so the in-place loop is the following index-wise map. -/
def applyNaturalGrain (M : JSMath) (data : List ℚ) (width height : ℕ)
    (s : GrainSettings) : List ℚ :=
  (List.range data.length).map (fun k =>
    if k / 4 < width * height ∧ k % 4 ≠ 3 then
      clamp (data.getD k 0 + grainValueAt M data width height s (k / 4))
    else data.getD k 0)

/-- The grain pipeline entry point (`GrainProcessor.applyGrain`,
grainProcessor.js lines 18-42): it draws the image, runs
`_applyNaturalGrain` on the pixel data and resolves with the result.
The source contains no validation of `width`, `height` or the buffer
length and no rejection path on this route, so the result is
unconditionally `Except.ok`; the explicit error channel records that a
refusal would have to surface here if the source had one. -/
def applyGrainPipeline (M : JSMath) (data : List ℚ) (width height : ℕ)
    (s : GrainSettings) : Except String (List ℚ) :=
  Except.ok (applyNaturalGrain M data width height s)

/-- An RGB triple of the LUT module (all-numeric entries). -/
structure RGB where
  r : ℚ
  g : ℚ
  b : ℚ
deriving DecidableEq

/-- A parsed 3D LUT as consumed by the sampling and grading stage of
`LUTProcessor` (part_001): the declared edge length and the flat sample
list in standard cube order (blue slowest, red fastest). -/
structure LUTTable where
  size : ℕ
  data : List RGB
deriving DecidableEq

/-- `LUTProcessor.mix` (part_001 line 469): `a + (b - a) * t`. -/
def jsMix (a b t : ℚ) : ℚ :=
  a + (b - a) * t

/-- `LUTProcessor.mixColor` (part_001 lines 458-464). -/
def mixColor (c1 c2 : RGB) (t : ℚ) : RGB :=
  ⟨jsMix c1.r c2.r t, jsMix c1.g c2.g t, jsMix c1.b c2.b t⟩

/-- `LUTProcessor.getLUTColor` (part_001 lines 450-453):
`lut.data[Math.min(z*size*size + y*size + x, lut.data.length - 1)]`.
A negative clamped index (which in JS would read `undefined`, possible
only for an empty table or negative lattice coordinates) is idealised to
the default entry; the claims under study never reach that case. -/
def getLUTColor (lut : LUTTable) (x y z size : ℤ) : RGB :=
  let index := z * size * size + y * size + x
  lut.data.getD (min index ((lut.data.length : ℤ) - 1)).toNat ⟨0, 0, 0⟩

/-- `LUTProcessor.sampleLUT3D` (part_001 lines 409-445): trilinear
interpolation of the 8 lattice corners around `(r,g,b) * (size-1)`.
Note the source clamps the `+1` neighbours only from above
(`Math.min(x0 + 1, size - 1)`), not from below. -/
def sampleLUT3D (lut : LUTTable) (r g b : ℚ) (size : ℕ) : RGB :=
  let x := r * ((size : ℚ) - 1)
  let y := g * ((size : ℚ) - 1)
  let z := b * ((size : ℚ) - 1)
  let x0 : ℤ := ⌊x⌋
  let y0 : ℤ := ⌊y⌋
  let z0 : ℤ := ⌊z⌋
  let x1 := min (x0 + 1) ((size : ℤ) - 1)
  let y1 := min (y0 + 1) ((size : ℤ) - 1)
  let z1 := min (z0 + 1) ((size : ℤ) - 1)
  let dx := x - (x0 : ℚ)
  let dy := y - (y0 : ℚ)
  let dz := z - (z0 : ℚ)
  let c000 := getLUTColor lut x0 y0 z0 (size : ℤ)
  let c100 := getLUTColor lut x1 y0 z0 (size : ℤ)
  let c010 := getLUTColor lut x0 y1 z0 (size : ℤ)
  let c110 := getLUTColor lut x1 y1 z0 (size : ℤ)
  let c001 := getLUTColor lut x0 y0 z1 (size : ℤ)
  let c101 := getLUTColor lut x1 y0 z1 (size : ℤ)
  let c011 := getLUTColor lut x0 y1 z1 (size : ℤ)
  let c111 := getLUTColor lut x1 y1 z1 (size : ℤ)
  let c00 := mixColor c000 c100 dx
  let c01 := mixColor c001 c101 dx
  let c10 := mixColor c010 c110 dx
  let c11 := mixColor c011 c111 dx
  let c0 := mixColor c00 c10 dy
  let c1 := mixColor c01 c11 dy
  mixColor c0 c1 dz

/-- The `ImageData` value consumed and produced by the LUT stage. -/
structure ImageData where
  data : List ℚ
  width : ℕ
  height : ℕ
deriving DecidableEq

/-- `LUTProcessor.applyLUTTransformation` (part_001 lines 377-404): copy
the buffer, and for every 4-sample block normalise R,G,B to `[0,1]`,
sample the LUT, and blend each colour sample toward the scaled LUT colour
by `strength`; the alpha sample of each block is not written.  As with the
grain stage, the stepped in-place loop is rendered index-wise (stores past
the buffer end are dropped by the typed array, reads past it are idealised
as 0 and arise only for lengths that are not multiples of 4). -/
def applyLUTTransformation (img : ImageData) (lut : LUTTable) (strength : ℚ) :
    ImageData :=
  ⟨(List.range img.data.length).map (fun k =>
      let i := 4 * (k / 4)
      if k % 4 = 3 then img.data.getD k 0
      else
        let r := img.data.getD i 0 / 255
        let g := img.data.getD (i + 1) 0 / 255
        let b := img.data.getD (i + 2) 0 / 255
        let lutColor := sampleLUT3D lut r g b lut.size
        let channel := if k % 4 = 0 then lutColor.r
          else if k % 4 = 1 then lutColor.g else lutColor.b
        jsMix (img.data.getD k 0) (channel * 255) strength),
    img.width, img.height⟩

/-- `LUTProcessor.applyLUT` (part_001 lines 340-372), parametric in the
cache and the external loader.  `cache name = none` models a cache miss
(`this.lutCache.get` returns `undefined`); `cache name = some none` models
a cached entry whose `data` is still `null`, in which case the source
awaits `loadExternalLUT`, modelled by `loader`, with `none` standing for a
load failure (the catch branch).  The initialisation, timestamp and `null
imageData` bookkeeping of the source does not affect the returned buffer
and is not modelled. -/
def applyLUT (cache : String → Option (Option LUTTable))
    (loader : String → Option LUTTable) (imageData : ImageData)
    (lutName : String) (strength : ℚ) : ImageData :=
  if lutName = "none" ∨ strength = 0 then imageData
  else
    match cache lutName with
    | none => imageData
    | some entry =>
      match entry with
      | some lutData => applyLUTTransformation imageData lutData strength
      | none =>
        match loader lutName with
        | some lutData => applyLUTTransformation imageData lutData strength
        | none => imageData

/-- The characters matched by the JS whitespace class used by
`String.prototype.trim` and by the `\s+` split of the data-row tokenizer
(restricted to the ASCII range occurring in `.cube` payloads). -/
def isJsSpace (c : Char) : Bool :=
  c == ' ' || c == '\t' || c == '\n' || c == '\r' || c == '\x0b' || c == '\x0c'

/-- Split a character list at every character satisfying `p`, keeping
empty pieces (the behaviour of `String.prototype.split` with a
single-character separator, and the core of the `\s+` split once empty
pieces are filtered out). -/
def splitOnPred (p : Char → Bool) : List Char → List (List Char)
  | [] => [[]]
  | c :: rest =>
    let r := splitOnPred p rest
    if p c then [] :: r
    else
      match r with
      | [] => [[c]]
      | h :: t => (c :: h) :: t

/-- `content.split(chr(10))` of `parseCUBEFile` (part_001 line 293). -/
def splitLines (cs : List Char) : List (List Char) :=
  splitOnPred (fun c => c == '\n') cs

/-- `line.trim()` (part_001 line 301). -/
def jsTrim (cs : List Char) : List Char :=
  ((cs.dropWhile isJsSpace).reverse.dropWhile isJsSpace).reverse

/-- `trimmed.split(whitespace).filter(v => v)` (part_001 line 313). -/
def wsTokens (cs : List Char) : List (List Char) :=
  (splitOnPred isJsSpace cs).filter (fun t => !t.isEmpty)

/-- Digit run of a numeric literal: value of a decimal digit list. -/
def digitsVal (ds : List Char) : ℕ :=
  ds.foldl (fun n c => n * 10 + (c.toNat - '0'.toNat)) 0

/-- JS `parseFloat`, idealised over `ℚ`: skip leading whitespace, read an
optional sign and the longest decimal-literal prefix
`digits [. digits] [e/E [sign] digits]`, ignore trailing junk, and return
`none` when no digits are found (the `NaN` outcome).  The non-finite
`Infinity` spelling, which never denotes a rational, is also mapped to
`none`; no claim depends on the numeric value of parsed entries. -/
def jsParseFloat (cs : List Char) : Option ℚ :=
  let cs := cs.dropWhile isJsSpace
  let (sgn, cs) : ℚ × List Char :=
    match cs with
    | '+' :: rest => (1, rest)
    | '-' :: rest => (-1, rest)
    | _ => (1, cs)
  let intDigits := cs.takeWhile Char.isDigit
  let rest := cs.dropWhile Char.isDigit
  let (fracDigits, rest) : List Char × List Char :=
    match rest with
    | '.' :: r => (r.takeWhile Char.isDigit, r.dropWhile Char.isDigit)
    | _ => ([], rest)
  if intDigits.isEmpty && fracDigits.isEmpty then none
  else
    let mantissa : ℚ := (digitsVal intDigits : ℚ)
      + (digitsVal fracDigits : ℚ) / (10 : ℚ) ^ fracDigits.length
    let expVal : ℤ :=
      match rest with
      | 'e' :: r => readExp r
      | 'E' :: r => readExp r
      | _ => 0
    some (sgn * mantissa * (10 : ℚ) ^ expVal)
where
  /-- Exponent part after `e`/`E`: optional sign and digits; an exponent
  with no digits is ignored by `parseFloat` (exponent 0). -/
  readExp (r : List Char) : ℤ :=
    match r with
    | '+' :: d => (digitsVal (d.takeWhile Char.isDigit) : ℤ)
    | '-' :: d => -(digitsVal (d.takeWhile Char.isDigit) : ℤ)
    | d => (digitsVal (d.takeWhile Char.isDigit) : ℤ)

/-- JS `parseInt` with no radix argument as used on `LUT_3D_SIZE` values
(part_001 line 309): skip whitespace, optional sign, longest decimal digit
prefix; `none` is the `NaN` outcome.  (The hexadecimal auto-radix of
`parseInt` is not modelled; no `.cube` size line uses it.) -/
def jsParseInt (cs : List Char) : Option ℤ :=
  let cs := cs.dropWhile isJsSpace
  let (sgn, cs) : ℤ × List Char :=
    match cs with
    | '+' :: rest => (1, rest)
    | '-' :: rest => (-1, rest)
    | _ => (1, cs)
  let digits := cs.takeWhile Char.isDigit
  if digits.isEmpty then none else some (sgn * (digitsVal digits : ℤ))

/-- `Math.max(0, Math.min(1, v))` applied to each parsed channel
(part_001 lines 316-318). -/
def clamp01 (v : ℚ) : ℚ :=
  max 0 (min 1 v)

/-- One parsed data row of a `.cube` payload; a channel is `none` when
`parseFloat` returned `NaN` (the clamp of `NaN` is again `NaN`). -/
structure CubeEntry where
  r : Option ℚ
  g : Option ℚ
  b : Option ℚ
deriving DecidableEq

/-- The `lut` object built by `parseCUBEFile` (part_001 lines 294-298):
declared size (`none` when a malformed `LUT_3D_SIZE` value parsed to
`NaN`), data rows in file order, and title. -/
structure CubeLUT where
  size : Option ℤ
  data : List CubeEntry
  title : List Char
deriving DecidableEq

/-- The loop body of `parseCUBEFile` (part_001 lines 300-322) for a single
line: skip blank and `#` lines, handle `TITLE` and `LUT_3D_SIZE` headers,
and append any other line with exactly 3 whitespace-separated tokens as a
data row (each channel `parseFloat`ed and clamped to `[0,1]`). -/
def parseCubeLine (lut : CubeLUT) (line : List Char) : CubeLUT :=
  let trimmed := jsTrim line
  if trimmed.isEmpty || "#".data.isPrefixOf trimmed then lut
  else if "TITLE".data.isPrefixOf trimmed then
    { lut with title := jsTrim ((trimmed.drop 5).filter (fun c => c != '"')) }
  else if "LUT_3D_SIZE".data.isPrefixOf trimmed then
    { lut with size := jsParseInt (jsTrim (trimmed.drop 11)) }
  else
    let values := wsTokens trimmed
    if values.length = 3 then
      { lut with data := lut.data ++
          [⟨(jsParseFloat (values.getD 0 [])).map clamp01,
            (jsParseFloat (values.getD 1 [])).map clamp01,
            (jsParseFloat (values.getD 2 [])).map clamp01⟩] }
    else lut

/-- `LUTProcessor.parseCUBEFile` (part_001 lines 292-335): fold the line
handler over the payload lines starting from the default table
(size 33, no data, title Unknown LUT), and throw
`No valid LUT data found` exactly when no data row was collected.  The
size-mismatch check of lines 329-332 only emits a console warning and
does not affect the result. -/
def parseCUBEFile (content : List Char) : Except String CubeLUT :=
  let lut := (splitLines content).foldl parseCubeLine
    ⟨some 33, [], "Unknown LUT".data⟩
  if lut.data.length = 0 then Except.error "No valid LUT data found"
  else Except.ok lut

/-- The lines on which `parseCubeLine` appends a data row: trimmed
non-blank, not a comment, not a `TITLE` or `LUT_3D_SIZE` header, and
exactly 3 whitespace-separated tokens (whether or not they parse as
numbers). -/
def isCodeDataRow (line : List Char) : Bool :=
  let trimmed := jsTrim line
  !trimmed.isEmpty && !("#".data.isPrefixOf trimmed)
    && !("TITLE".data.isPrefixOf trimmed)
    && !("LUT_3D_SIZE".data.isPrefixOf trimmed)
    && (wsTokens trimmed).length == 3

/-- Modelled from the spec: a data row in the sense of the claim under
examination — a non-comment, non-blank line with exactly 3
whitespace-separated floats (tokens accepted by `parseFloat` as numbers). -/
def isSpecDataRow (line : List Char) : Bool :=
  let trimmed := jsTrim line
  !trimmed.isEmpty && !("#".data.isPrefixOf trimmed)
    && (wsTokens trimmed).length == 3
    && (wsTokens trimmed).all (fun v => (jsParseFloat v).isSome)

/-- Modelled from the spec: the fractional-part function written `frac`
in the specification of the gradient hash. -/
def frac (t : ℚ) : ℚ :=
  t - (⌊t⌋ : ℚ)

/-- Modelled from the spec: the gradient-offset dot product as the
specification words it — the gradient angle is
`frac(sin(ix*12.9898 + iy*78.233) * 43758.5453) * 2π`, the gradient is
`(cos(angle), sin(angle))`, and the result is its dot product with the
offset `(ox, oy)`. -/
def specGradientDot (M : JSMath) (ix iy ox oy : ℚ) : ℚ :=
  let angle := frac (M.sin (ix * 12.9898 + iy * 78.233) * 43758.5453) * (2 * M.pi)
  M.cos angle * ox + M.sin angle * oy

/-- Modelled from the spec: the noise query as the specification words
it — the four lattice corners surrounding `(x, y)`, the dot product of
each corner gradient with the offset from that corner to `(x, y)`, and
quintic-fade bilinear interpolation across the four dot products. -/
def specCoherentNoise (M : JSMath) (x y : ℚ) : ℚ :=
  let X : ℤ := ⌊x⌋
  let Y : ℤ := ⌊y⌋
  let d00 := specGradientDot M (X : ℚ) (Y : ℚ) (x - (X : ℚ)) (y - (Y : ℚ))
  let d10 := specGradientDot M ((X : ℚ) + 1) (Y : ℚ) (x - ((X : ℚ) + 1)) (y - (Y : ℚ))
  let d01 := specGradientDot M (X : ℚ) ((Y : ℚ) + 1) (x - (X : ℚ)) (y - ((Y : ℚ) + 1))
  let d11 := specGradientDot M ((X : ℚ) + 1) ((Y : ℚ) + 1) (x - ((X : ℚ) + 1))
    (y - ((Y : ℚ) + 1))
  let u := fade (x - (X : ℚ))
  let v := fade (y - (Y : ℚ))
  lerp (lerp d00 d10 u) (lerp d01 d11 u) v

/-- Reading a mapped range at an in-range index. -/
theorem getD_map_range {α : Type} (d : α) (f : ℕ → α) {n k : ℕ} (h : k < n) :
    ((List.range n).map f).getD k d = f k := by
  rw [List.getD_eq_getElem?_getD, List.getElem?_map, List.getElem?_range h]
  rfl

/-- Reading a list at an in-range index via `getD`. -/
theorem getD_eq_getElem {α : Type} (d : α) (l : List α) {k : ℕ}
    (h : k < l.length) : l.getD k d = l[k] := by
  rw [List.getD_eq_getElem?_getD, List.getElem?_eq_getElem h]
  rfl

/-- The grain stage preserves the buffer length. -/
theorem applyNaturalGrain_length (M : JSMath) (data : List ℚ)
    (width height : ℕ) (s : GrainSettings) :
    (applyNaturalGrain M data width height s).length = data.length := by
  simp [applyNaturalGrain]

/-- Index-wise description of the grain stage at in-range indices. -/
theorem applyNaturalGrain_getD (M : JSMath) (data : List ℚ)
    (width height : ℕ) (s : GrainSettings) {k : ℕ} (hk : k < data.length) :
    (applyNaturalGrain M data width height s).getD k 0 =
      if k / 4 < width * height ∧ k % 4 ≠ 3 then
        clamp (data.getD k 0 + grainValueAt M data width height s (k / 4))
      else data.getD k 0 := by
  unfold applyNaturalGrain
  exact getD_map_range 0 _ hk

/-- The LUT grading stage preserves the buffer length. -/
theorem applyLUTTransformation_length (img : ImageData) (lut : LUTTable)
    (strength : ℚ) :
    (applyLUTTransformation img lut strength).data.length = img.data.length := by
  simp [applyLUTTransformation]

/-- Index-wise description of the LUT grading stage at in-range indices. -/
theorem applyLUTTransformation_getD (img : ImageData) (lut : LUTTable)
    (strength : ℚ) {k : ℕ} (hk : k < img.data.length) :
    (applyLUTTransformation img lut strength).data.getD k 0 =
      if k % 4 = 3 then img.data.getD k 0
      else
        let i := 4 * (k / 4)
        let lutColor := sampleLUT3D lut (img.data.getD i 0 / 255)
          (img.data.getD (i + 1) 0 / 255) (img.data.getD (i + 2) 0 / 255) lut.size
        let channel := if k % 4 = 0 then lutColor.r
          else if k % 4 = 1 then lutColor.g else lutColor.b
        jsMix (img.data.getD k 0) (channel * 255) strength := by
  unfold applyLUTTransformation
  exact getD_map_range 0 _ hk

/-- A concrete computable host-math instance used to exhibit concrete
behaviours of the parametric pipeline: constant sine, cosine and
exponential, identity tanh. -/
def M0 : JSMath := ⟨fun _ => 0, fun _ => 1, fun t => t, fun _ => 0, 0⟩

/-- A concrete 2×1 RGBA buffer whose second pixel has a saturated red
channel and a black green channel. -/
def data0 : List ℚ := [0, 0, 0, 255, 255, 0, 0, 255]

/-- A concrete 2×1 RGBA buffer with headroom on every colour channel of
the second pixel. -/
def data1 : List ℚ := [0, 0, 0, 255, 100, 50, 25, 255]

/-- Concrete settings: ISO 800, strength 1, grain size 8. -/
def s0 : GrainSettings := ⟨800, 1, 8⟩

/-- The grain increment of pixel 1 of the 2×1 buffers under `M0` and `s0`:
a strictly positive subsaturating value.  (The increment does not depend
on the pixel values because `M0.exp` is constant, so it is the same for
`data0` and `data1`.) -/
theorem grainValueAt_M0_pixel1 (data : List ℚ) :
    grainValueAt M0 data 2 1 s0 1 = 42613135 / 33554432 := by
  have h8 : Int.fract ((1 : ℚ) / 8) = 1 / 8 := by rw [Int.fract]; norm_num
  have h16 : Int.fract ((1 : ℚ) / 16) = 1 / 16 := by rw [Int.fract]; norm_num
  have h32 : Int.fract ((1 : ℚ) / 32) = 1 / 32 := by rw [Int.fract]; norm_num
  norm_num [grainValueAt, createLuminanceMap, generateMonochromaticGrain,
    grainPixel, generateCoherentNoise, gradientDot, applyFilmCurve,
    getAdaptiveStrength, getIsoParameters, scales, fade, lerp, M0, s0,
    List.range_succ, h8, h16, h32]

/-- C1 counterexample: on the concrete buffer `data0` (pixel 1 has R = 255,
G = 0) the grain stage changes G by a strictly positive increment while R,
already saturated, is clamped and does not move, so the per-channel deltas
of pixel 1 differ: the claim that the post-composite deltas agree on all
three channels for every buffer is false. -/
theorem c1_counterexample :
    (applyNaturalGrain M0 data0 2 1 s0).getD 4 0 - data0.getD 4 0 ≠
      (applyNaturalGrain M0 data0 2 1 s0).getD 5 0 - data0.getD 5 0 := by
  have h4 := applyNaturalGrain_getD M0 data0 2 1 s0 (k := 4) (by norm_num [data0])
  have h5 := applyNaturalGrain_getD M0 data0 2 1 s0 (k := 5) (by norm_num [data0])
  have hg := grainValueAt_M0_pixel1 data0
  rw [h4, h5]
  norm_num [hg]
  norm_num [data0, clamp]

/-- C1 (amended): the loop adds the same grain increment
`grainValueAt … p` to all three colour channels of a pixel before
clamping, so whenever no channel of the pixel saturates (each original
value plus the increment stays inside `[0,255]`), the post-composite
per-channel deltas coincide: `(Rout - Rin) = (Gout - Gin) = (Bout - Bin)`.
Saturation is the only source of per-channel divergence. -/
theorem c1_monochromatic_delta (M : JSMath) (data : List ℚ) (w h : ℕ)
    (s : GrainSettings) (p : ℕ) (hp : 4 * p + 2 < data.length)
    (hin : ∀ c, c < 3 →
      0 ≤ data.getD (4 * p + c) 0 + grainValueAt M data w h s p ∧
      data.getD (4 * p + c) 0 + grainValueAt M data w h s p ≤ 255) :
    (applyNaturalGrain M data w h s).getD (4 * p) 0 - data.getD (4 * p) 0 =
      (applyNaturalGrain M data w h s).getD (4 * p + 1) 0 -
        data.getD (4 * p + 1) 0 ∧
    (applyNaturalGrain M data w h s).getD (4 * p + 1) 0 -
        data.getD (4 * p + 1) 0 =
      (applyNaturalGrain M data w h s).getD (4 * p + 2) 0 -
        data.getD (4 * p + 2) 0 := by
  have key : ∀ c, c < 3 →
      (applyNaturalGrain M data w h s).getD (4 * p + c) 0 -
        data.getD (4 * p + c) 0 =
      (if p < w * h then grainValueAt M data w h s p else 0) := by
    intro c hc
    have hk : 4 * p + c < data.length := by omega
    have hdiv : (4 * p + c) / 4 = p := by omega
    have hmod : (4 * p + c) % 4 = c := by omega
    rw [applyNaturalGrain_getD M data w h s hk, hdiv, hmod]
    by_cases hcov : p < w * h
    · rw [if_pos ⟨hcov, by omega⟩, if_pos hcov]
      have hb := hin c hc
      rw [clamp, min_eq_right hb.2, max_eq_right hb.1]
      ring
    · rw [if_neg (fun hand => hcov hand.1), if_neg hcov]
      ring
  have h0 := key 0 (by omega)
  have h1 := key 1 (by omega)
  have h2 := key 2 (by omega)
  rw [Nat.add_zero] at h0
  exact ⟨h0.trans h1.symm, h1.trans h2.symm⟩

/-- C1 witness: a concrete pixel with headroom on all three channels
satisfies the no-saturation hypotheses, and the amended theorem applies. -/
theorem c1_witness :
    (4 * 1 + 2 < data1.length ∧ (∀ c, c < 3 →
      0 ≤ data1.getD (4 * 1 + c) 0 + grainValueAt M0 data1 2 1 s0 1 ∧
      data1.getD (4 * 1 + c) 0 + grainValueAt M0 data1 2 1 s0 1 ≤ 255)) ∧
    ((applyNaturalGrain M0 data1 2 1 s0).getD (4 * 1) 0 -
        data1.getD (4 * 1) 0 =
      (applyNaturalGrain M0 data1 2 1 s0).getD (4 * 1 + 1) 0 -
        data1.getD (4 * 1 + 1) 0 ∧
    (applyNaturalGrain M0 data1 2 1 s0).getD (4 * 1 + 1) 0 -
        data1.getD (4 * 1 + 1) 0 =
      (applyNaturalGrain M0 data1 2 1 s0).getD (4 * 1 + 2) 0 -
        data1.getD (4 * 1 + 2) 0) := by
  have hg := grainValueAt_M0_pixel1 data1
  have hbounds : ∀ c, c < 3 →
      0 ≤ data1.getD (4 * 1 + c) 0 + grainValueAt M0 data1 2 1 s0 1 ∧
      data1.getD (4 * 1 + c) 0 + grainValueAt M0 data1 2 1 s0 1 ≤ 255 := by
    intro c hc
    interval_cases c <;> rw [hg] <;> norm_num [data1]
  exact ⟨⟨by norm_num [data1], hbounds⟩,
    c1_monochromatic_delta M0 data1 2 1 s0 1 (by norm_num [data1]) hbounds⟩

/-- C2: for fixed width, height and grain size (and host math), the
coherent grain synthesis returns identical grids on repeated calls.  The
embedded `_generateMonochromaticGrain` is a pure function of exactly these
inputs — unlike the separate `_generateOptimizedGrain` fast path, this
path never consults `Math.random` and keeps no mutable state — so the
determinism property `synthesize(w,h,s) == synthesize(w,h,s)` holds
definitionally. -/
theorem c2_synthesis_deterministic (M : JSMath) (width height : ℕ)
    (grainSize : ℚ) :
    generateMonochromaticGrain M width height grainSize =
      generateMonochromaticGrain M width height grainSize := rfl

/-- C3: both per-pixel stages leave every alpha sample (index `k` with
`k % 4 = 3`) unchanged: the grain loop writes only the three colour
samples of each pixel, and the LUT loop skips `i + 3` of every block. -/
theorem c3_alpha_preserved (M : JSMath) (data : List ℚ) (w h : ℕ)
    (s : GrainSettings) (img : ImageData) (lut : LUTTable) (strength : ℚ)
    (k : ℕ) (hk : k % 4 = 3) :
    (applyNaturalGrain M data w h s).getD k 0 = data.getD k 0 ∧
    (applyLUTTransformation img lut strength).data.getD k 0 =
      img.data.getD k 0 := by
  constructor
  · by_cases hlen : k < data.length
    · rw [applyNaturalGrain_getD M data w h s hlen,
        if_neg (fun hand => hand.2 hk)]
    · rw [List.getD_eq_default, List.getD_eq_default]
      · omega
      · rw [applyNaturalGrain_length]; omega
  · by_cases hlen : k < img.data.length
    · rw [applyLUTTransformation_getD img lut strength hlen, if_pos hk]
    · rw [List.getD_eq_default, List.getD_eq_default]
      · omega
      · rw [applyLUTTransformation_length]; omega

/-- A concrete 2×1 `ImageData` value. -/
def img0 : ImageData := ⟨data0, 2, 1⟩

/-- A concrete identity-corner 2×2×2 LUT table. -/
def lut2 : LUTTable :=
  ⟨2, [⟨0, 0, 0⟩, ⟨1, 0, 0⟩, ⟨0, 1, 0⟩, ⟨1, 1, 0⟩,
       ⟨0, 0, 1⟩, ⟨1, 0, 1⟩, ⟨0, 1, 1⟩, ⟨1, 1, 1⟩]⟩

/-- C3 witness: the alpha sample of pixel 0 survives both stages on a
concrete buffer. -/
theorem c3_witness :
    3 % 4 = 3 ∧
    ((applyNaturalGrain M0 data0 2 1 s0).getD 3 0 = data0.getD 3 0 ∧
     (applyLUTTransformation img0 lut2 1).data.getD 3 0 = img0.data.getD 3 0) :=
  ⟨rfl, c3_alpha_preserved M0 data0 2 1 s0 img0 lut2 1 3 rfl⟩

/-- C4: every colour sample the grain compositing stage writes (an
in-buffer index of a processed pixel that is not the alpha channel) lies
in `[0,255]`: the written value is `clamp(original + increment)` and
`clamp` saturates into the interval, whatever the settings and the
increment. -/
theorem c4_output_in_range (M : JSMath) (data : List ℚ) (w h : ℕ)
    (s : GrainSettings) (k : ℕ) (hk3 : k % 4 ≠ 3) (hcov : k / 4 < w * h)
    (hlen : k < data.length) :
    0 ≤ (applyNaturalGrain M data w h s).getD k 0 ∧
    (applyNaturalGrain M data w h s).getD k 0 ≤ 255 := by
  rw [applyNaturalGrain_getD M data w h s hlen, if_pos ⟨hcov, hk3⟩, clamp]
  exact ⟨le_max_left _ _, max_le (by norm_num) (min_le_left _ _)⟩

/-- C4 witness: the saturated red channel of pixel 1 of `data0` (pushed
above 255 before clamping) is written inside `[0,255]`. -/
theorem c4_witness :
    (4 % 4 ≠ 3 ∧ 4 / 4 < 2 * 1 ∧ 4 < data0.length) ∧
    (0 ≤ (applyNaturalGrain M0 data0 2 1 s0).getD 4 0 ∧
     (applyNaturalGrain M0 data0 2 1 s0).getD 4 0 ≤ 255) :=
  ⟨⟨by norm_num, by norm_num, by norm_num [data0]⟩,
    c4_output_in_range M0 data0 2 1 s0 4 (by norm_num) (by norm_num)
      (by norm_num [data0])⟩

/-- C5: the noise primitive matches the specified formulas exactly: the
gradient-offset dot product uses the angle
`frac(sin(ix*12.9898 + iy*78.233) * 43758.5453) * 2π` with gradient
`(cos angle, sin angle)`, and a noise query interpolates the four corner
gradient-offset dot products bilinearly with the quintic fade
`fade(t) = t³(t(6t−15)+10)`. -/
theorem c5_noise_matches_spec (M : JSMath) :
    (∀ ix iy ox oy : ℚ,
      gradientDot M ix iy ox oy = specGradientDot M ix iy ox oy) ∧
    (∀ x y : ℚ, generateCoherentNoise M x y = specCoherentNoise M x y) := by
  have hgd : ∀ ix iy ox oy : ℚ,
      gradientDot M ix iy ox oy = specGradientDot M ix iy ox oy := by
    intro ix iy ox oy
    simp only [gradientDot, specGradientDot, frac]
    have harg : ∀ t : ℚ,
        (t - (⌊t⌋ : ℚ)) * M.pi * 2 = (t - (⌊t⌋ : ℚ)) * (2 * M.pi) :=
      fun t => by ring
    rw [harg]
  refine ⟨hgd, fun x y => ?_⟩
  unfold generateCoherentNoise specCoherentNoise
  simp only [hgd]
  unfold specGradientDot frac lerp fade
  ring

/-- The LUT colour mix at parameter 0 returns the first colour. -/
theorem mixColor_zero (c1 c2 : RGB) : mixColor c1 c2 0 = c1 := by
  cases c1
  cases c2
  simp [mixColor, jsMix]

/-- C6: on a well-formed table (edge length at least 2, `size³` samples),
sampling at exactly `r = g = b = 0` returns the sample at linear index 0,
and sampling at exactly `r = g = b = 1` returns the sample at linear index
`size³ - 1`: at both corners the fractional offsets vanish, so the
trilinear blend collapses onto the corner lattice sample. -/
theorem c6_corner_sampling (lut : LUTTable) (hsize : 2 ≤ lut.size)
    (hlen : lut.data.length = lut.size ^ 3) :
    sampleLUT3D lut 0 0 0 lut.size = lut.data.getD 0 ⟨0, 0, 0⟩ ∧
    sampleLUT3D lut 1 1 1 lut.size = lut.data.getD (lut.size ^ 3 - 1) ⟨0, 0, 0⟩ := by
  have hcube : 8 ≤ lut.size ^ 3 := by
    calc (8 : ℕ) = 2 ^ 3 := by norm_num
    _ ≤ lut.size ^ 3 := Nat.pow_le_pow_left hsize 3
  constructor
  · unfold sampleLUT3D
    simp only [zero_mul, Int.floor_zero, Int.cast_zero, sub_zero, mixColor_zero]
    unfold getLUTColor
    simp only [mul_zero, zero_mul, add_zero, zero_add]
    have hmin : min (0 : ℤ) ((lut.data.length : ℤ) - 1) = 0 := by
      rw [hlen]; omega
    rw [hmin]
    rfl
  · unfold sampleLUT3D
    have hfl : ⌊(1 : ℚ) * ((lut.size : ℚ) - 1)⌋ = (lut.size : ℤ) - 1 := by
      rw [one_mul, show ((lut.size : ℚ) - 1) = (((lut.size : ℤ) - 1 : ℤ) : ℚ) by
        push_cast; ring, Int.floor_intCast]
    have hdx : (1 : ℚ) * ((lut.size : ℚ) - 1) - (((lut.size : ℤ) - 1 : ℤ) : ℚ) = 0 := by
      push_cast; ring
    simp only [hfl, hdx, mixColor_zero]
    unfold getLUTColor
    have hidx : ((lut.size : ℤ) - 1) * (lut.size : ℤ) * (lut.size : ℤ)
        + ((lut.size : ℤ) - 1) * (lut.size : ℤ) + ((lut.size : ℤ) - 1)
        = ((lut.size ^ 3 : ℕ) : ℤ) - 1 := by
      push_cast
      ring
    rw [hidx, hlen]
    have htn : (((lut.size ^ 3 : ℕ) : ℤ) - 1).toNat = lut.size ^ 3 - 1 := by
      omega
    simp only [min_self, htn]

/-- C6 witness: the concrete 2×2×2 table `lut2` satisfies the hypotheses
and both corner samples are the first and last table rows. -/
theorem c6_witness :
    (2 ≤ lut2.size ∧ lut2.data.length = lut2.size ^ 3) ∧
    (sampleLUT3D lut2 0 0 0 lut2.size = lut2.data.getD 0 ⟨0, 0, 0⟩ ∧
     sampleLUT3D lut2 1 1 1 lut2.size = lut2.data.getD (lut2.size ^ 3 - 1) ⟨0, 0, 0⟩) :=
  ⟨⟨by norm_num [lut2], by norm_num [lut2]⟩,
    c6_corner_sampling lut2 (by norm_num [lut2]) (by norm_num [lut2])⟩

/-- Each parsed line grows the data-row list by one exactly on the lines
`parseCubeLine` treats as data rows. -/
theorem parseCubeLine_data_length (lut : CubeLUT) (line : List Char) :
    (parseCubeLine lut line).data.length =
      lut.data.length + (if isCodeDataRow line then 1 else 0) := by
  simp only [parseCubeLine, isCodeDataRow]
  split_ifs <;>
    simp_all [List.length_append, List.isPrefixOf_iff_prefix, Bool.eq_false_iff]

/-- The data-row count of the whole fold is the number of data-row lines. -/
theorem parseCube_foldl_length (lines : List (List Char)) :
    ∀ acc : CubeLUT, (lines.foldl parseCubeLine acc).data.length =
      acc.data.length + lines.countP isCodeDataRow := by
  induction lines with
  | nil => intro acc; simp
  | cons l ls ih =>
    intro acc
    rw [List.foldl_cons, ih, List.countP_cons, parseCubeLine_data_length]
    by_cases h : isCodeDataRow l
    · simp [h]
      omega
    · simp [h]

/-- C7 (amended): parsing a `.cube` payload succeeds if and only if at
least one line is a data row in the sense of the code — a trimmed
non-blank, non-comment line that is not a `TITLE` or `LUT_3D_SIZE` header
and has exactly 3 whitespace-separated tokens, whether or not the tokens
parse as floats (unparseable tokens yield NaN channel entries but still
count).  In particular a mismatch between the data-row count and
`size³` never makes parsing fail: the table is returned whenever any
token-data row exists. -/
theorem c7_parse_fails_iff_no_token_rows (content : List Char) :
    (parseCUBEFile content).isOk = true ↔
      0 < (splitLines content).countP isCodeDataRow := by
  simp only [parseCUBEFile]
  rw [parseCube_foldl_length (splitLines content) ⟨some 33, [], "Unknown LUT".data⟩]
  by_cases h : (splitLines content).countP isCodeDataRow = 0
  · rw [if_pos (by simp [h])]
    constructor
    · intro hok
      exact absurd hok (by simp [Except.isOk, Except.toBool])
    · intro hlt
      omega
  · rw [if_neg (by simp [h])]
    constructor
    · intro _
      omega
    · intro _
      simp [Except.isOk, Except.toBool]

/-- C7 counterexample: the payload consisting of the single line
`x y z` has zero data rows in the claimed sense (no token parses as a
float: every channel of the pushed row is NaN), yet `parseCUBEFile` does
not fail — it returns a table with that one garbage row — so failure is
not equivalent to the absence of 3-float data rows. -/
theorem c7_counterexample :
    ¬ (((parseCUBEFile ("x y z".data)).isOk = false) ↔
        (splitLines ("x y z".data)).countP isSpecDataRow = 0) := by
  intro hiff
  have hok : (parseCUBEFile ("x y z".data)).isOk = true := rfl
  have hcount : (splitLines ("x y z".data)).countP isSpecDataRow = 0 := rfl
  have := hiff.mpr hcount
  rw [hok] at this
  exact Bool.noConfusion this

/-- C8: the LUT application is a no-op returning the input buffer when the
selection is the sentinel none-string, when `strength` is 0, when the
cache has no entry for the name, or when the cached entry has no data and
the external load fails; the unresolved cases are non-fatal — the grain
stage output passed in is returned as-is. -/
theorem c8_applyLUT_noop (cache : String → Option (Option LUTTable))
    (loader : String → Option LUTTable) (img : ImageData) (name : String)
    (strength : ℚ)
    (h : name = "none" ∨ strength = 0 ∨ cache name = none ∨
      (cache name = some none ∧ loader name = none)) :
    applyLUT cache loader img name strength = img := by
  unfold applyLUT
  rcases h with h | h | h | ⟨h1, h2⟩
  · rw [if_pos (Or.inl h)]
  · rw [if_pos (Or.inr h)]
  · by_cases hns : name = "none" ∨ strength = 0
    · rw [if_pos hns]
    · rw [if_neg hns, h]
  · by_cases hns : name = "none" ∨ strength = 0
    · rw [if_pos hns]
    · rw [if_neg hns, h1, h2]

/-- An empty LUT cache. -/
def cache0 : String → Option (Option LUTTable) := fun _ => none

/-- A loader on which every external LUT load fails. -/
def loader0 : String → Option LUTTable := fun _ => none

/-- C8 witness: the sentinel selection on a concrete buffer and cache. -/
theorem c8_witness :
    ("none" = "none" ∨ (1 : ℚ) = 0 ∨ cache0 "none" = none ∨
      (cache0 "none" = some none ∧ loader0 "none" = none)) ∧
    applyLUT cache0 loader0 img0 "none" 1 = img0 :=
  ⟨Or.inl rfl, c8_applyLUT_noop cache0 loader0 img0 "none" 1 (Or.inl rfl)⟩

/-- C9 counterexample: a buffer that is invalid in the claimed sense
(width 0, yet 8 data samples, so the length is inconsistent with
`width*height*4 = 0`) is not refused: the pipeline reports no error and
resolves with an output buffer (here equal to the input, as the per-pixel
loop body never runs).  The claim that processing refuses and reports
before producing output is false of the code, which has no validation. -/
theorem c9_counterexample :
    applyGrainPipeline M0 data0 0 1 s0 = Except.ok data0 ∧
    data0.length ≠ 0 * 1 * 4 := by
  constructor
  · rfl
  · norm_num [data0]

/-- C9 (amended): the pipeline performs no buffer validation at all: for
every math model, buffer, dimensions and settings it resolves successfully
(never reports an error to the caller), and when `width = 0` or
`height = 0` the per-pixel loop body never runs, so it resolves with the
buffer unchanged rather than refusing. -/
theorem c9_no_validation (M : JSMath) (data : List ℚ) (w h : ℕ)
    (s : GrainSettings) :
    (applyGrainPipeline M data w h s).isOk = true ∧
    (w = 0 ∨ h = 0 → applyGrainPipeline M data w h s = Except.ok data) := by
  refine ⟨rfl, fun h0 => ?_⟩
  unfold applyGrainPipeline
  congr 1
  unfold applyNaturalGrain
  have hwh : w * h = 0 := by
    rcases h0 with h0 | h0 <;> simp [h0]
  rw [hwh]
  apply List.ext_getElem
  · simp
  · intro i h1 h2
    simp only [List.getElem_map, List.getElem_range, Nat.not_lt_zero,
      false_and, if_false]
    rw [List.length_map, List.length_range] at h1
    exact getD_eq_getElem 0 data h1

/-- C9 witness: the amended statement at the concrete invalid buffer. -/
theorem c9_witness :
    ((0 : ℕ) = 0 ∨ (1 : ℕ) = 0) ∧
    applyGrainPipeline M0 data0 0 1 s0 = Except.ok data0 :=
  ⟨Or.inl rfl, (c9_no_validation M0 data0 0 1 s0).2 (Or.inl rfl)⟩

/-- C10: whenever the host `tanh` is strictly bounded by 1 in absolute
value (as the real `tanh` is), every value of the synthesized grain grid
lies strictly inside `(-0.5, 0.5)`: each grid value is
`tanh(2 * raw) * 0.5` for some raw multi-band sum, and the film curve
bounds it by half of the `tanh` bound regardless of `raw`. -/
theorem c10_grain_bounded (M : JSMath) (htanh : ∀ t, |M.tanh t| < 1)
    (w h : ℕ) (g : ℚ) (_hg : 0 < g) :
    ∀ row ∈ generateMonochromaticGrain M w h g, ∀ v ∈ row, |v| < 1 / 2 := by
  intro row hrow v hv
  simp only [generateMonochromaticGrain, List.mem_map, List.mem_range] at hrow
  obtain ⟨y, _, rfl⟩ := hrow
  simp only [List.mem_map, List.mem_range] at hv
  obtain ⟨x, _, rfl⟩ := hv
  unfold grainPixel applyFilmCurve
  rw [abs_mul, show |(0.5 : ℚ)| = 1 / 2 by norm_num]
  calc |M.tanh _| * (1 / 2) < 1 * (1 / 2) :=
        mul_lt_mul_of_pos_right (htanh _) (by norm_num)
    _ = 1 / 2 := by norm_num

/-- A host-math instance whose `tanh` is the constant zero function,
trivially strictly bounded by 1 in absolute value. -/
def M1 : JSMath := ⟨fun _ => 0, fun _ => 1, fun _ => 0, fun _ => 0, 0⟩

/-- C10 witness: the bound hypotheses hold for `M1` and a 1×1 grid with
grain size 1, and the theorem applies. -/
theorem c10_witness :
    (∀ t : ℚ, |M1.tanh t| < 1) ∧ (0 : ℚ) < 1 ∧
    (∀ row ∈ generateMonochromaticGrain M1 1 1 1, ∀ v ∈ row, |v| < 1 / 2) :=
  ⟨fun t => by norm_num [M1], by norm_num,
    c10_grain_bounded M1 (fun t => by norm_num [M1]) 1 1 1 (by norm_num)⟩
